import Mathlib

/-!
# Verification of the RethinkDB connection bootstrapper

Shallow embedding of `src/connection.js` (the `Connection` class of
deepstream.io-storage-rethinkdb).  The class drives a four-step handshake
against the rethinkdb driver: connect, list databases, create the target
database when absent, select it, then invoke the caller-supplied callback.

The driver is modelled as a record fixing the (error, result) pair each
driver call passes to its error-first callback; one bootstrap run is then a
deterministic function producing the final instance state, the (mutated)
options object, and the full trace of observable events.
-/

/-- JS `a || b` where `a` is a string field that may be undefined.
The only falsy string is the empty string. -/
def jsOrString (a : Option String) (b : String) : String :=
  match a with
  | some s => if s = "" then b else s
  | none => b

/-- JS `Array.prototype.indexOf` on a list of strings: index of the first
occurrence, `-1` when absent. -/
def jsIndexOf (l : List String) (x : String) : Int :=
  match l with
  | [] => -1
  | a :: rest =>
      if a = x then 0
      else
        let r := jsIndexOf rest x
        if r = -1 then -1 else r + 1

/-- The caller-supplied options object.  `database` and `db` are the two
fields `connection.js` reads or writes; every other connect option
(host, port, credentials, ...) is opaque to the class and kept in `rest`. -/
structure Options where
  database : Option String
  db : Option String
  rest : List (String × String)
deriving DecidableEq

/-- Observable events of one bootstrap run, in order: driver requests
issued, driver callbacks invoked, the synchronous `use` call, and the
invocations of the caller-supplied completion callback (with both of its
argument slots recorded; a slot the code does not pass is `none`,
matching `undefined`). -/
inductive Event (E H : Type) where
  | connectIssued (opts : Options)
  | connectCbInvoked (error : Option E)
  | dbListIssued (conn : H)
  | dbListCbInvoked (error : Option E)
  | dbCreateIssued (name : String) (conn : Option H)
  | dbCreateCbInvoked (error : Option E)
  | useCalled (conn : Option H) (name : String)
  | callbackInvoked (error : Option E) (second : Option H)
deriving DecidableEq

/-- Outcomes the driver delivers to the three fallible calls, as the
(error, result) pair each error-first callback receives.  On a failure the
result slot is the junk `undefined` value the handler never reads. -/
structure Driver (E H : Type) where
  connectOutcome : Option E × H
  dbListOutcome : Option E × List String
  dbCreateOutcome : Option E × Unit
deriving DecidableEq

/-- The mutable instance fields of `Connection`: `_connection` and
`_database` (`_options` and `_callback` are set once and never change). -/
structure ConnState (H : Type) where
  connection : Option H
  database : String
deriving DecidableEq

variable {E H R : Type}

/-- `Connection.get`: returns the underlying rethinkdb connection. -/
def Connection.get (st : ConnState H) : Option H :=
  st.connection

/-- `Connection._fn`: wraps a step function into an error-first callback
that forwards a non-null error straight to the completion callback and
otherwise passes the result on to the step. -/
def fnAdapter (next : ConnState H → R → ConnState H × List (Event E H))
    (st : ConnState H) (error : Option E) (result : R) :
    ConnState H × List (Event E H) :=
  match error with
  | some e => (st, [Event.callbackInvoked (some e) none])
  | none => next st result

/-- `Connection._onDb`: select the database on the stored connection and
invoke the completion callback with `null` (and nothing else). -/
def onDb (st : ConnState H) : ConnState H × List (Event E H) :=
  (st, [Event.useCalled st.connection st.database,
        Event.callbackInvoked none none])

/-- `Connection._onDbList`: create the database when its name is absent
from the listing, otherwise proceed directly. -/
def onDbList (d : Driver E H) (st : ConnState H) (dbList : List String) :
    ConnState H × List (Event E H) :=
  if jsIndexOf dbList st.database = -1 then
    let res := fnAdapter (fun st2 _ => onDb st2) st
      d.dbCreateOutcome.1 d.dbCreateOutcome.2
    (res.1, Event.dbCreateIssued st.database st.connection
        :: Event.dbCreateCbInvoked d.dbCreateOutcome.1 :: res.2)
  else
    onDb st

/-- `Connection._onConnection`: store the connection handle, then request
the database listing on it. -/
def onConnection (d : Driver E H) (st : ConnState H) (connection : H) :
    ConnState H × List (Event E H) :=
  let st1 : ConnState H := { st with connection := some connection }
  let res := fnAdapter (onDbList d) st1 d.dbListOutcome.1 d.dbListOutcome.2
  (res.1, Event.dbListIssued connection
      :: Event.dbListCbInvoked d.dbListOutcome.1 :: res.2)

/-- Everything one bootstrap run produces: the options object as the
constructor leaves it, the final instance state, and the event trace. -/
structure RunResult (E H : Type) where
  options : Options
  state : ConnState H
  events : List (Event E H)
deriving DecidableEq

/-- The `Connection` constructor followed by the full callback chain:
compute the effective database name, write it into the caller's options
object, issue the connect request, and let the driver outcomes drive the
handshake to its single completion-callback invocation. -/
def run (d : Driver E H) (options : Options) : RunResult E H :=
  let database := jsOrString options.database "deepstream"
  let options1 : Options := { options with db := some database }
  let st0 : ConnState H := { connection := none, database := database }
  let res := fnAdapter (onConnection d) st0
    d.connectOutcome.1 d.connectOutcome.2
  { options := options1
    state := res.1
    events := Event.connectIssued options1
        :: Event.connectCbInvoked d.connectOutcome.1 :: res.2 }

/-- Recognises completion-callback invocations in a trace. -/
def isCallback : Event E H → Bool
  | .callbackInvoked _ _ => true
  | _ => false

/-- Recognises dbCreate requests in a trace. -/
def isDbCreateIssued : Event E H → Bool
  | .dbCreateIssued _ _ => true
  | _ => false

/-- Recognises dbList requests in a trace. -/
def isDbListIssued : Event E H → Bool
  | .dbListIssued _ => true
  | _ => false

/-- Recognises connect requests in a trace. -/
def isConnectIssued : Event E H → Bool
  | .connectIssued _ => true
  | _ => false

/-- Recognises `use` calls in a trace. -/
def isUseCalled : Event E H → Bool
  | .useCalled _ _ => true
  | _ => false

/-- Recognises connect-callback invocations in a trace. -/
def isConnectCb : Event E H → Bool
  | .connectCbInvoked _ => true
  | _ => false

/-- Recognises dbList-callback invocations in a trace. -/
def isDbListCb : Event E H → Bool
  | .dbListCbInvoked _ => true
  | _ => false

/-- Recognises dbCreate-callback invocations in a trace. -/
def isDbCreateCb : Event E H → Bool
  | .dbCreateCbInvoked _ => true
  | _ => false

/-- Scan keeping a flag for whether a `p` element has been seen: every `q`
element must come strictly after some `p` element. -/
def chkPreceded {α : Type} (p q : α → Bool) : Bool → List α → Bool
  | _, [] => true
  | seen, x :: rest => (!(q x) || seen) && chkPreceded p q (seen || p x) rest

/-- `precededBy p q l`: every element of `l` satisfying `q` occurs strictly
after some earlier element satisfying `p`. -/
def precededBy {α : Type} (p q : α → Bool) (l : List α) : Bool :=
  chkPreceded p q false l

/-- A test options object with a set database name. -/
def optsTest : Options :=
  { database := some "testdb", db := none, rest := [("host", "x")] }

/-- Driver outcomes: connect succeeds with handle 42, listing fails. -/
def driverListFail : Driver String Nat :=
  { connectOutcome := (none, 42)
    dbListOutcome := (some "listErr", [])
    dbCreateOutcome := (none, ()) }

/-- Driver outcomes: connect succeeds with handle 42, the listing contains
the target name. -/
def driverPresent : Driver String Nat :=
  { connectOutcome := (none, 42)
    dbListOutcome := (none, ["other", "testdb"])
    dbCreateOutcome := (none, ()) }

/-- Driver outcomes: connect succeeds, the listing lacks the target name,
creation succeeds. -/
def driverAbsent : Driver String Nat :=
  { connectOutcome := (none, 42)
    dbListOutcome := (none, ["other"])
    dbCreateOutcome := (none, ()) }

/-- Driver outcomes: connect succeeds, the listing lacks the target name,
creation fails. -/
def driverCreateFail : Driver String Nat :=
  { connectOutcome := (none, 42)
    dbListOutcome := (none, ["other"])
    dbCreateOutcome := (some "createErr", ()) }

/-- Driver outcomes: connect fails with error E1. -/
def driverConnectFail : Driver String Nat :=
  { connectOutcome := (some "E1", 0)
    dbListOutcome := (none, [])
    dbCreateOutcome := (none, ()) }

/-- C1: the completion callback is invoked exactly once per bootstrap run,
with a single error slot that is either non-null or null — for every
combination of success and failure of the three fallible steps. -/
theorem callback_exactly_once (E H : Type) (d : Driver E H) (o : Options) :
    ∃ err second,
      ((run d o).events.filter isCallback) = [Event.callbackInvoked err second] := by
  obtain ⟨⟨ce, ch⟩, ⟨le, ll⟩, ⟨de, du⟩⟩ := d
  cases ce <;> cases le <;> cases de <;>
    simp [run, fnAdapter, onConnection, onDbList, onDb, isCallback] <;>
    split <;>
    simp [isCallback]

/-- Helper: the final instance state's database name is always the
effective name computed by the constructor, in every branch. -/
theorem run_state_database (E H : Type) (d : Driver E H) (o : Options) :
    (run d o).state.database = jsOrString o.database "deepstream" := by
  obtain ⟨⟨ce, ch⟩, ⟨le, ll⟩, ⟨de, du⟩⟩ := d
  cases ce <;> cases le <;> cases de <;>
    simp [run, fnAdapter, onConnection, onDbList, onDb] <;>
    split <;> simp

/-- C2 counterexample: after a successful connect whose subsequent
database-listing step fails, the accessor returns the stored handle 42,
not null, even though the completion callback fired with an error. -/
theorem get_counterexample :
    Connection.get (run driverListFail optsTest).state = some 42 ∧
    ((run driverListFail optsTest).events.filter isCallback
      = [Event.callbackInvoked (some "listErr") none]) ∧
    Connection.get (run driverListFail optsTest).state ≠ none :=
  ⟨rfl, rfl, by decide⟩

/-- C2 (amended): the accessor returns null exactly until the connect step
succeeds; from the moment the connect callback delivers the handle it
returns that handle, even while later steps are pending or have failed. -/
theorem get_tracks_connect (E H : Type) (d : Driver E H) (o : Options) :
    Connection.get (run d o).state =
      match d.connectOutcome.1 with
      | some _ => none
      | none => some d.connectOutcome.2 := by
  obtain ⟨⟨ce, ch⟩, ⟨le, ll⟩, ⟨de, du⟩⟩ := d
  cases ce <;> cases le <;> cases de <;>
    simp [run, fnAdapter, onConnection, onDbList, onDb, Connection.get] <;>
    split <;> simp [Connection.get]

/-- C4 counterexample: with the database field set to the empty string the
effective target name is the default, not that exact (empty) string. -/
theorem empty_database_counterexample :
    (run driverPresent { database := some "", db := none, rest := [] }).state.database
      = "deepstream" ∧
    (run driverPresent { database := some "", db := none, rest := [] }).state.database
      ≠ "" :=
  ⟨rfl, by decide⟩

/-- C4 (amended): an unset or empty (falsy) database field yields the
default "deepstream"; a nonempty string is used exactly. -/
theorem effective_database_name (E H : Type) (d : Driver E H) (o : Options) :
    (o.database = none → (run d o).state.database = "deepstream") ∧
    (o.database = some "" → (run d o).state.database = "deepstream") ∧
    (∀ s, o.database = some s → s ≠ "" → (run d o).state.database = s) := by
  refine ⟨fun h => ?_, fun h => ?_, fun s h hs => ?_⟩
  · simp [run_state_database, jsOrString, h]
  · simp [run_state_database, jsOrString, h]
  · simp [run_state_database, jsOrString, h, hs]

/-- Witness for the amended C4 at a concrete nonempty database name. -/
theorem effective_database_name_witness :
    optsTest.database = some "testdb" ∧ "testdb" ≠ "" ∧
    (run driverPresent optsTest).state.database = "testdb" :=
  ⟨rfl, by decide,
    (effective_database_name String Nat driverPresent optsTest).2.2 "testdb" rfl
      (by decide)⟩

/-- C3 counterexample: with the target name present in the listing, the
completion callback fires with a null error but with nothing in its second
argument slot — the handle 42 held by the instance is not passed. -/
theorem callback_second_arg_counterexample :
    (run driverPresent optsTest).state.connection = some 42 ∧
    ((run driverPresent optsTest).events.filter isCallback
      = [Event.callbackInvoked none none]) ∧
    Event.callbackInvoked (none : Option String) (none : Option Nat)
      ≠ Event.callbackInvoked none (some 42) :=
  ⟨rfl, rfl, by decide⟩

/-- C3 (amended): when the configured name is present in the listing, no
create request is issued, the select call is performed on the stored
handle, and the completion callback then fires with a null error and no
second argument (the handle is not passed; it stays retrievable via the
accessor). -/
theorem present_database_no_create (E H : Type) (d : Driver E H) (o : Options)
    (hc : d.connectOutcome.1 = none) (hl : d.dbListOutcome.1 = none)
    (hp : ¬ jsIndexOf d.dbListOutcome.2 (jsOrString o.database "deepstream") = -1) :
    ((run d o).events.filter isDbCreateIssued = []) ∧
    Event.useCalled (some d.connectOutcome.2) (jsOrString o.database "deepstream")
      ∈ (run d o).events ∧
    ((run d o).events.filter isCallback = [Event.callbackInvoked none none]) ∧
    Connection.get (run d o).state = some d.connectOutcome.2 := by
  obtain ⟨⟨ce, ch⟩, ⟨le, ll⟩, ⟨de, du⟩⟩ := d
  dsimp only at hc hl hp ⊢
  subst hc
  subst hl
  simp [run, fnAdapter, onConnection, onDbList, onDb, hp,
    isDbCreateIssued, isCallback, Connection.get]

/-- Witness for the amended C3: both success hypotheses and the presence
condition hold for the concrete present-name driver. -/
theorem present_database_no_create_witness :
    driverPresent.connectOutcome.1 = none ∧
    driverPresent.dbListOutcome.1 = none ∧
    ¬ jsIndexOf driverPresent.dbListOutcome.2
        (jsOrString optsTest.database "deepstream") = -1 ∧
    ((run driverPresent optsTest).events.filter isDbCreateIssued = []) :=
  ⟨rfl, rfl, by decide,
    (present_database_no_create String Nat driverPresent optsTest rfl rfl
      (by decide)).1⟩

/-- C5: when the configured name is absent from the listing, exactly one
create request is issued, with exactly that name; on creation success the
select call happens and the callback fires with a null error; on creation
failure the callback fires with the creation error and no select call is
ever performed. -/
theorem absent_database_creates (E H : Type) (d : Driver E H) (o : Options)
    (hc : d.connectOutcome.1 = none) (hl : d.dbListOutcome.1 = none)
    (ha : jsIndexOf d.dbListOutcome.2 (jsOrString o.database "deepstream") = -1) :
    ((run d o).events.filter isDbCreateIssued
      = [Event.dbCreateIssued (jsOrString o.database "deepstream")
          (some d.connectOutcome.2)]) ∧
    (d.dbCreateOutcome.1 = none →
      Event.useCalled (some d.connectOutcome.2) (jsOrString o.database "deepstream")
        ∈ (run d o).events ∧
      ((run d o).events.filter isCallback = [Event.callbackInvoked none none])) ∧
    (∀ e, d.dbCreateOutcome.1 = some e →
      ((run d o).events.filter isCallback = [Event.callbackInvoked (some e) none]) ∧
      ((run d o).events.filter isUseCalled = [])) := by
  obtain ⟨⟨ce, ch⟩, ⟨le, ll⟩, ⟨de, du⟩⟩ := d
  dsimp only at hc hl ha ⊢
  subst hc
  subst hl
  refine ⟨?_, fun h => ?_, fun e h => ?_⟩
  · cases de <;>
      simp [run, fnAdapter, onConnection, onDbList, onDb, ha, isDbCreateIssued]
  · subst h
    simp [run, fnAdapter, onConnection, onDbList, onDb, ha, isCallback]
  · subst h
    simp [run, fnAdapter, onConnection, onDbList, onDb, ha, isCallback, isUseCalled]

/-- Witness for C5 with the concrete absent-name drivers, covering both
the creation-success and the creation-failure branch. -/
theorem absent_database_creates_witness :
    driverAbsent.connectOutcome.1 = none ∧
    driverAbsent.dbListOutcome.1 = none ∧
    jsIndexOf driverAbsent.dbListOutcome.2
      (jsOrString optsTest.database "deepstream") = -1 ∧
    ((run driverAbsent optsTest).events.filter isDbCreateIssued
      = [Event.dbCreateIssued "testdb" (some 42)]) ∧
    driverCreateFail.dbCreateOutcome.1 = some "createErr" ∧
    ((run driverCreateFail optsTest).events.filter isUseCalled = []) :=
  ⟨rfl, rfl, by decide,
    (absent_database_creates String Nat driverAbsent optsTest rfl rfl (by decide)).1,
    rfl,
    ((absent_database_creates String Nat driverCreateFail optsTest rfl rfl
      (by decide)).2.2 "createErr" rfl).2⟩

/-- C6: when the connect step fails, the completion callback fires exactly
once with that non-null error, the stored handle stays null, and no
dbList or dbCreate request is ever issued. -/
theorem connect_failure_aborts (E H : Type) (d : Driver E H) (o : Options)
    (e : E) (hc : d.connectOutcome.1 = some e) :
    ((run d o).events.filter isCallback = [Event.callbackInvoked (some e) none]) ∧
    (run d o).state.connection = none ∧
    ((run d o).events.filter isDbListIssued = []) ∧
    ((run d o).events.filter isDbCreateIssued = []) := by
  obtain ⟨⟨ce, ch⟩, ⟨le, ll⟩, ⟨de, du⟩⟩ := d
  dsimp only at hc ⊢
  subst hc
  simp [run, fnAdapter, isCallback, isDbListIssued, isDbCreateIssued]

/-- Witness for C6 at the concrete connect-failure driver. -/
theorem connect_failure_aborts_witness :
    driverConnectFail.connectOutcome.1 = some "E1" ∧
    ((run driverConnectFail optsTest).events.filter isCallback
      = [Event.callbackInvoked (some "E1") none]) :=
  ⟨rfl, (connect_failure_aborts String Nat driverConnectFail optsTest "E1" rfl).1⟩

/-- C7: when connect succeeds but listing fails, the completion callback
fires exactly once with the listing error and no create request is ever
issued. -/
theorem list_failure_aborts (E H : Type) (d : Driver E H) (o : Options)
    (e : E) (hc : d.connectOutcome.1 = none) (hl : d.dbListOutcome.1 = some e) :
    ((run d o).events.filter isCallback = [Event.callbackInvoked (some e) none]) ∧
    ((run d o).events.filter isDbCreateIssued = []) := by
  obtain ⟨⟨ce, ch⟩, ⟨le, ll⟩, ⟨de, du⟩⟩ := d
  dsimp only at hc hl ⊢
  subst hc
  subst hl
  simp [run, fnAdapter, onConnection, isCallback, isDbCreateIssued]

/-- Witness for C7 at the concrete listing-failure driver. -/
theorem list_failure_aborts_witness :
    driverListFail.connectOutcome.1 = none ∧
    driverListFail.dbListOutcome.1 = some "listErr" ∧
    ((run driverListFail optsTest).events.filter isDbCreateIssued = []) :=
  ⟨rfl, rfl,
    (list_failure_aborts String Nat driverListFail optsTest "listErr" rfl rfl).2⟩

/-- C8: whichever fallible step fails, the exact error value the driver
delivered is the one handed to the completion callback — unchanged, with
no wrapping — and no driver request is ever issued more than once (no
retry). -/
theorem errors_propagate_unchanged (E H : Type) (d : Driver E H) (o : Options) :
    (∀ e, d.connectOutcome.1 = some e →
      (run d o).events.filter isCallback = [Event.callbackInvoked (some e) none]) ∧
    (∀ e, d.connectOutcome.1 = none → d.dbListOutcome.1 = some e →
      (run d o).events.filter isCallback = [Event.callbackInvoked (some e) none]) ∧
    (∀ e, d.connectOutcome.1 = none → d.dbListOutcome.1 = none →
      jsIndexOf d.dbListOutcome.2 (jsOrString o.database "deepstream") = -1 →
      d.dbCreateOutcome.1 = some e →
      (run d o).events.filter isCallback = [Event.callbackInvoked (some e) none]) ∧
    ((run d o).events.filter isConnectIssued).length ≤ 1 ∧
    ((run d o).events.filter isDbListIssued).length ≤ 1 ∧
    ((run d o).events.filter isDbCreateIssued).length ≤ 1 := by
  obtain ⟨⟨ce, ch⟩, ⟨le, ll⟩, ⟨de, du⟩⟩ := d
  dsimp only
  refine ⟨fun e h => ?_, fun e h1 h2 => ?_, fun e h1 h2 h3 h4 => ?_, ?_, ?_, ?_⟩
  · subst h
    simp [run, fnAdapter, isCallback]
  · subst h1
    subst h2
    simp [run, fnAdapter, onConnection, isCallback]
  · subst h1
    subst h2
    subst h4
    simp [run, fnAdapter, onConnection, onDbList, h3, isCallback]
  · cases ce <;> cases le <;> cases de <;>
      simp [run, fnAdapter, onConnection, onDbList, onDb, isConnectIssued] <;>
      split <;> simp [isConnectIssued]
  · cases ce <;> cases le <;> cases de <;>
      simp [run, fnAdapter, onConnection, onDbList, onDb, isDbListIssued] <;>
      split <;> simp [isDbListIssued]
  · cases ce <;> cases le <;> cases de <;>
      simp [run, fnAdapter, onConnection, onDbList, onDb, isDbCreateIssued] <;>
      split <;> simp [isDbCreateIssued]

/-- Witness for C8 at the concrete connect-failure driver: the error E1 is
delivered verbatim to the completion callback. -/
theorem errors_propagate_unchanged_witness :
    driverConnectFail.connectOutcome.1 = some "E1" ∧
    ((run driverConnectFail optsTest).events.filter isCallback
      = [Event.callbackInvoked (some "E1") none]) :=
  ⟨rfl,
    (errors_propagate_unchanged String Nat driverConnectFail optsTest).1 "E1" rfl⟩

/-- C9: the handshake is totally ordered — the dbList request comes only
after the connect callback, the dbCreate request only after the dbList
callback, and the select call plus the completion callback only after the
callback of the last step that was issued. -/
theorem steps_totally_ordered (E H : Type) (d : Driver E H) (o : Options) :
    precededBy isConnectCb isDbListIssued (run d o).events = true ∧
    precededBy isDbListCb isDbCreateIssued (run d o).events = true ∧
    precededBy isDbListCb isUseCalled (run d o).events = true ∧
    precededBy isConnectCb isCallback (run d o).events = true ∧
    ((run d o).events.any isDbCreateIssued = true →
      precededBy isDbCreateCb isUseCalled (run d o).events = true ∧
      precededBy isDbCreateCb isCallback (run d o).events = true) ∧
    ((run d o).events.any isDbListIssued = true →
      precededBy isDbListCb isCallback (run d o).events = true) := by
  obtain ⟨⟨ce, ch⟩, ⟨le, ll⟩, ⟨de, du⟩⟩ := d
  cases ce <;> cases le <;> cases de <;>
    simp [run, fnAdapter, onConnection, onDbList, onDb, precededBy, chkPreceded,
      isConnectCb, isDbListCb, isDbCreateCb, isDbListIssued, isDbCreateIssued,
      isUseCalled, isCallback] <;>
    split <;>
    simp [precededBy, chkPreceded, isConnectCb, isDbListCb, isDbCreateCb,
      isDbListIssued, isDbCreateIssued, isUseCalled, isCallback]

/-- Witness for C9: with the absent-name driver a create request occurs,
and the select call is indeed preceded by the dbCreate callback. -/
theorem steps_totally_ordered_witness :
    (run driverAbsent optsTest).events.any isDbCreateIssued = true ∧
    precededBy isDbCreateCb isUseCalled (run driverAbsent optsTest).events = true :=
  ⟨by decide,
    ((steps_totally_ordered String Nat driverAbsent optsTest).2.2.2.2.1
      (by decide)).1⟩

/-- C10: the constructor writes the effective database name into the
caller-supplied options object's db field before issuing the connect
request (the connect request carries the mutated object), and leaves the
database field and every other field unchanged. -/
theorem constructor_mutates_options (E H : Type) (d : Driver E H) (o : Options) :
    (run d o).options.db = some (jsOrString o.database "deepstream") ∧
    (run d o).options.database = o.database ∧
    (run d o).options.rest = o.rest ∧
    (run d o).events.head? = some (Event.connectIssued ((run d o).options)) := by
  simp [run]
